import Mathlib

/-!
# Verification of the CryptoCompare HTTP gateway (src/main.py)

A shallow embedding of the single-file FastAPI gateway: the upstream-client
classification function `fetch_from_cryptocompare`, the per-endpoint
parameter normalization of the router handlers, the news reshaping of
`get_news`, and the failure downgrading of `test_api_key`.

Python-specific primitives (str.upper, str.split, list slicing, dict
truthiness) are modelled explicitly below, each faithful to CPython
semantics for the values this program feeds them.
-/

/-- A JSON value, the shape of upstream payloads (opaque to the gateway
except on the news path). -/
inductive Json where
  | null
  | str (s : String)
  | num (n : Int)
  | bool (b : Bool)
  | arr (xs : List Json)
  | obj (fields : List (String × Json))
deriving Repr

/-- Python `d.get(key)`: first binding of `key`, `None` (here `none`) when absent. -/
def Json.get? (j : Json) (key : String) : Option Json :=
  match j with
  | .obj fields => fields.lookup key
  | _ => none

/-- Python `d.get(key, dflt)`. -/
def Json.getD (j : Json) (key : String) (dflt : Json) : Json :=
  (j.get? key).getD dflt

/-- Python truthiness of a deserialized JSON value (`if item.get("tags")`):
`None`, `""`, `0`, `False`, `[]`, `{ }` are falsy, all else truthy. -/
def Json.truthy : Json → Bool
  | .null => false
  | .str s => !(s == "")
  | .num n => !(n == 0)
  | .bool b => b
  | .arr xs => !xs.isEmpty
  | .obj fs => !fs.isEmpty

/-- Python `s.upper()` on the ASCII symbol/language strings this gateway
uppercases. -/
def pyUpper (s : String) : String := String.mk (s.data.map Char.toUpper)

/-- Python `s.split(sep)` for a one-character separator, on the character
list: keeps empty pieces, `"".split("|") = [""]`. -/
def splitOnChar (sep : Char) : List Char → List (List Char)
  | [] => [[]]
  | c :: cs =>
    if c = sep then [] :: splitOnChar sep cs
    else
      match splitOnChar sep cs with
      | [] => [[c]]
      | h :: t => (c :: h) :: t

/-- Python `s.split(sep)` for a one-character separator (the program only
splits on `"|"`). -/
def pySplit (s : String) (sep : Char) : List String :=
  (splitOnChar sep s.data).map String.mk

/-- The pipe character `"|"` (code point 124), the separator of upstream
category and tag strings. -/
def pipeChar : Char := Char.ofNat 124

/-- Python `s[:n]` on a string: the first `n` characters (here only used
with `n = 200 ≥ 0`). -/
def pyTake (s : String) (n : Nat) : String := String.mk (s.data.take n)

/-- Python `xs[:limit]` on a list, including the negative-limit case:
`xs[:-k]` drops the last `k` elements. -/
def pySliceTo (xs : List Json) (limit : Int) : List Json :=
  if 0 ≤ limit then xs.take limit.toNat
  else xs.take (xs.length - (-limit).toNat)

/-- Python `min(a, b)` on ints. -/
def pyMin (a b : Int) : Int := min a b

/-- Python `if e: params["e"] = e` — the optional exchange parameter is
forwarded only when truthy (non-empty). -/
def fwdTruthy (e : Option String) : Option String :=
  match e with
  | some s => if s = "" then none else some s
  | none => none

/-- A single quote character, for Python `repr` of strings. -/
def sQuote : String := String.singleton (Char.ofNat 39)

/-- Python `repr` of a one-entry `dict` of strings, as interpolated by the
f-string `f"🔍 With headers: \x7bHEADERS\x7d"`. -/
def pyDictRepr1 (k v : String) : String :=
  String.singleton (Char.ofNat 123) ++ sQuote ++ k ++ sQuote ++ ": " ++ sQuote ++ v ++ sQuote
    ++ String.singleton (Char.ofNat 125)

/-- `HEADERS["authorization"] = f"Apikey \x7bCRYPTOCOMPARE_API_KEY\x7d"`
(src/main.py lines 23–25), as a function of the configured credential. -/
def headerAuthValue (key : String) : String := "Apikey " ++ key

/-- `HEADERS` as a function of the configured credential. -/
def HEADERS (key : String) : List (String × String) :=
  [("authorization", headerAuthValue key)]

/-- The diagnostic trace line `print(f"🔍 With headers: \x7bHEADERS\x7d")`
(src/main.py line 36), as the text written to the operator log. -/
def tracedHeadersLine (key : String) : String :=
  "🔍 With headers: " ++ pyDictRepr1 "authorization" (headerAuthValue key)

/-- `needle` occurs verbatim inside `hay`. -/
def strContains (hay needle : String) : Prop :=
  needle.toList <:+: hay.toList

instance (hay needle : String) : Decidable (strContains hay needle) := by
  unfold strContains; infer_instance

/-- `pre` is a prefix of `s`. -/
def strStartsWith (s pre : String) : Prop :=
  pre.toList <+: s.toList

instance (s pre : String) : Decidable (strStartsWith s pre) := by
  unfold strStartsWith; infer_instance

/-- FastAPI `HTTPException(status_code, detail)`. -/
structure HTTPException where
  status_code : Int
  detail : String
deriving Repr, DecidableEq

/-- What one call to `requests.get` yields: an HTTP response (status code,
body text, parsed JSON of the body) or a transport-level error
(`requests.RequestException`) with its message. -/
inductive UpstreamResult where
  | response (status : Int) (text : String) (json : Json)
  | transportError (msg : String)
deriving Repr

/-- The status-code classification of `fetch_from_cryptocompare`
(src/main.py lines 44–57): 200 → the parsed JSON body; 400 → 400 with the
body echoed in full; 401 → fixed message; 429 → fixed message; any other
status → the same status with the body truncated to 200 characters. -/
def fetch_classify (status : Int) (text : String) (json : Json) :
    Except HTTPException Json :=
  if status = 200 then .ok json
  else if status = 400 then
    .error ⟨400, "❌ Bad Request: " ++ text⟩
  else if status = 401 then
    .error ⟨401, "❌ Invalid API Key"⟩
  else if status = 429 then
    .error ⟨429, "❌ Rate limit exceeded. Please try again later."⟩
  else
    .error ⟨status, "⚠ Unexpected Error: " ++ pyTake text 200⟩

/-- `fetch_from_cryptocompare` (src/main.py lines 32–60): classify the
upstream result; a `requests.RequestException` becomes a 500 with the
transport error text. -/
def fetch_from_cryptocompare : UpstreamResult → Except HTTPException Json
  | .response status text json => fetch_classify status text json
  | .transportError msg => .error ⟨500, "❌ Connection Error: " ++ msg⟩

/-- The reshaped news record built by `get_news` (src/main.py lines
171–179); absent scalar fields are `null` (Python `item.get(k)` → `None`). -/
structure NewsItem where
  id : Json
  title : Json
  url : Json
  source : Json
  published_on : Json
  categories : List String
  tags : List String
deriving Repr

/-- `item.get("categories", "").split("|")` (src/main.py line 177); a
present non-string value would raise `AttributeError` in Python, modelled
as an error. -/
def reshapeCategories (item : Json) : Except String (List String) :=
  match item.getD "categories" (Json.str "") with
  | .str s => .ok (pySplit s pipeChar)
  | _ => .error "AttributeError"

/-- `item.get("tags", "").split("|") if item.get("tags") else []`
(src/main.py line 178). -/
def reshapeTags (item : Json) : Except String (List String) :=
  let t := item.getD "tags" Json.null
  if t.truthy then
    match t with
    | .str s => .ok (pySplit s pipeChar)
    | _ => .error "AttributeError"
  else .ok []

/-- The dict appended to `simplified_news` for one upstream item
(src/main.py lines 171–179). -/
def reshapeItem (item : Json) : Except String NewsItem := do
  let cats ← reshapeCategories item
  let tags ← reshapeTags item
  .ok ⟨item.getD "id" .null, item.getD "title" .null, item.getD "url" .null,
    item.getD "source" .null, item.getD "published_on" .null, cats, tags⟩

/-- The Python `for item in ...: simplified_news.append(...)` loop: reshape
each item in order, aborting on the first failure. -/
def reshapeAll : List Json → Except String (List NewsItem)
  | [] => .ok []
  | x :: xs => do
      let y ← reshapeItem x
      let ys ← reshapeAll xs
      .ok (y :: ys)

/-- The envelope returned by `get_news` (src/main.py lines 181–185). -/
structure NewsEnvelope where
  status : String
  count : Nat
  news : List NewsItem
deriving Repr

/-- `"Data" in full_response and isinstance(full_response["Data"], list)`
(src/main.py line 169). -/
def extractData (j : Json) : Option (List Json) :=
  match j.get? "Data" with
  | some (.arr xs) => some xs
  | _ => none

/-- The client-side reshaping of `get_news` (src/main.py lines 164–185):
take `full_response["Data"][:limit]` when present, reshape each item, and
wrap in `{status: "success", count: len(simplified_news), news: ...}`. -/
def get_news_reshape (limit : Int) (full_response : Json) :
    Except String NewsEnvelope :=
  match extractData full_response with
  | some xs => do
      let items ← reshapeAll (pySliceTo xs limit)
      .ok ⟨"success", items.length, items⟩
  | none => .ok ⟨"success", 0, []⟩

/-- Parameters `get_price` sends upstream (src/main.py lines 72–78). -/
structure PriceParams where
  fsym : String
  tsyms : String
  e : Option String
deriving Repr, DecidableEq

def get_price_params (fsym tsyms : String) (e : Option String) : PriceParams :=
  ⟨pyUpper fsym, pyUpper tsyms, fwdTruthy e⟩

/-- Parameters `get_pricemulti` sends upstream (src/main.py lines 197–203). -/
structure PriceMultiParams where
  fsyms : String
  tsyms : String
  e : Option String
deriving Repr, DecidableEq

def get_pricemulti_params (fsyms tsyms : String) (e : Option String) :
    PriceMultiParams :=
  ⟨pyUpper fsyms, pyUpper tsyms, fwdTruthy e⟩

/-- Parameters `get_histoday` / `get_histohour` send upstream
(src/main.py lines 94–102 and 118–126): `limit` is `min(limit, 2000)`. -/
structure HistoParams where
  fsym : String
  tsym : String
  limit : Int
  aggregate : Int
  e : Option String
deriving Repr, DecidableEq

def get_histoday_params (fsym tsym : String) (limit aggregate : Int)
    (e : Option String) : HistoParams :=
  ⟨pyUpper fsym, pyUpper tsym, pyMin limit 2000, aggregate, fwdTruthy e⟩

def get_histohour_params (fsym tsym : String) (limit aggregate : Int)
    (e : Option String) : HistoParams :=
  ⟨pyUpper fsym, pyUpper tsym, pyMin limit 2000, aggregate, fwdTruthy e⟩

/-- Parameters `get_top_pairs` sends upstream (src/main.py lines 139–142):
`limit` is `min(limit, 100)`. -/
structure TopPairsParams where
  fsym : String
  limit : Int
deriving Repr, DecidableEq

def get_top_pairs_params (fsym : String) (limit : Int) : TopPairsParams :=
  ⟨pyUpper fsym, pyMin limit 100⟩

/-- Parameters `get_news` sends upstream (src/main.py lines 156–162):
`limit` is `min(limit, 20)`, `lang` is uppercased, `categories` is
forwarded only when truthy. -/
structure NewsParams where
  limit : Int
  lang : String
  categories : Option String
deriving Repr, DecidableEq

def get_news_params (categories : Option String) (limit : Int) (lang : String) :
    NewsParams :=
  ⟨pyMin limit 20, pyUpper lang, fwdTruthy categories⟩

/-- Starlette renders `str(HTTPException)` as `f"\x7bstatus_code\x7d: \x7bdetail\x7d"`;
this is the `str(e)` interpolated by `test_api_key`. -/
def strOfExc (e : HTTPException) : String :=
  toString e.status_code ++ ": " ++ e.detail

/-- The body `test_api_key` returns (src/main.py lines 208–222). -/
structure TestKeyBody where
  status : String
  message : String
  price : Option Json
deriving Repr

/-- `test_api_key` (src/main.py lines 208–222): a total function — every
failure of the probe call is caught by `except Exception` and downgraded
to a `{status: "error", message: ...}` body; nothing propagates to the
transport layer. -/
def test_api_key (r : UpstreamResult) : TestKeyBody :=
  match fetch_from_cryptocompare r with
  | .ok result =>
      ⟨"success",
       "✅ API key is valid and connection to CryptoCompare is established",
       some result⟩
  | .error e =>
      ⟨"error", "❌ Connection Error: " ++ strOfExc e, none⟩

/-! ## Helper lemmas -/

theorem toList_append_eq (a b : String) : (a ++ b).toList = a.toList ++ b.toList := rfl

theorem str_append_assoc (a b c : String) : (a ++ b) ++ c = a ++ (b ++ c) :=
  congrArg String.mk (List.append_assoc a.data b.data c.data)

theorem strContains_middle (a b k : String) : strContains (a ++ k ++ b) k :=
  ⟨a.toList, b.toList, by simp [toList_append_eq]⟩

theorem reshapeAll_length (xs : List Json) (ys : List NewsItem)
    (h : reshapeAll xs = .ok ys) : ys.length = xs.length := by
  induction xs generalizing ys with
  | nil =>
    simp only [reshapeAll] at h
    cases h
    rfl
  | cons x xs ih =>
    simp only [reshapeAll, bind, Except.bind] at h
    cases hx : reshapeItem x with
    | error e => rw [hx] at h; cases h
    | ok y =>
      rw [hx] at h
      cases hxs : reshapeAll xs with
      | error e => rw [hxs] at h; cases h
      | ok ys2 =>
        rw [hxs] at h
        cases h
        simp [ih ys2 hxs]

theorem pySliceTo_length_le (xs : List Json) (l : Int) (h : 0 ≤ l) :
    (pySliceTo xs l).length ≤ l.toNat := by
  simp only [pySliceTo, if_pos h, List.length_take]
  omega

/-! ## Claim theorems -/

/-- C7: for every integer `limit`, the effective limit sent upstream equals
`min(limit, ceiling)` — ceiling 2000 for daily/hourly history, 100 for top
pairs, 20 for news; values above the ceiling are capped to it, values at or
below it (including negative values) pass through unchanged; the builders
are total so no value is rejected; in particular `limit=5000` on daily
history yields effective `2000`. -/
theorem limit_clamping (f t : String) (l a : Int) (e : Option String) :
    (get_histoday_params f t l a e).limit = min l 2000
    ∧ (get_histohour_params f t l a e).limit = min l 2000
    ∧ (get_top_pairs_params f l).limit = min l 100
    ∧ (get_news_params none l "EN").limit = min l 20
    ∧ (if 2000 < l then min l 2000 = 2000 else min l 2000 = l)
    ∧ (if 100 < l then min l 100 = 100 else min l 100 = l)
    ∧ (if 20 < l then min l 20 = 20 else min l 20 = l)
    ∧ (get_histoday_params f t 5000 a e).limit = 2000 := by
  refine ⟨rfl, rfl, rfl, rfl, ?_, ?_, ?_, ?_⟩
  · split <;> omega
  · split <;> omega
  · split <;> omega
  · show pyMin 5000 2000 = 2000
    simp only [pyMin]
    omega

/-- C8: for every string input to a symbol parameter (`fsym`, `tsym`,
`fsyms`, `tsyms`) of the price, multi-symbol price, history and top-pairs
operations, the value sent upstream is the uppercased form of the input;
in particular `"btc"` becomes `"BTC"`. -/
theorem symbol_uppercasing (f ts fs t : String) (l a : Int) (e : Option String) :
    (get_price_params f ts e).fsym = pyUpper f
    ∧ (get_price_params f ts e).tsyms = pyUpper ts
    ∧ (get_pricemulti_params fs ts e).fsyms = pyUpper fs
    ∧ (get_pricemulti_params fs ts e).tsyms = pyUpper ts
    ∧ (get_histoday_params f t l a e).fsym = pyUpper f
    ∧ (get_histoday_params f t l a e).tsym = pyUpper t
    ∧ (get_histohour_params f t l a e).fsym = pyUpper f
    ∧ (get_histohour_params f t l a e).tsym = pyUpper t
    ∧ (get_top_pairs_params f l).fsym = pyUpper f
    ∧ pyUpper "btc" = "BTC" :=
  ⟨rfl, rfl, rfl, rfl, rfl, rfl, rfl, rfl, rfl, by decide⟩

/-- C6: the reshaped news item splits the pipe-delimited `categories`
string into an ordered list of category strings and the pipe-delimited
`tags` string into an ordered list of tag strings, with an empty or absent
`tags` field yielding the empty list; in particular
`"BTC|Regulation"` splits to `["BTC", "Regulation"]`. -/
theorem news_split_fields (item : Json) (c : String)
    (hc : item.get? "categories" = some (Json.str c)) :
    reshapeCategories item = .ok (pySplit c pipeChar)
    ∧ (∀ tg : String, item.get? "tags" = some (Json.str tg) → tg ≠ "" →
        reshapeTags item = .ok (pySplit tg pipeChar))
    ∧ (item.get? "tags" = none → reshapeTags item = .ok [])
    ∧ (item.get? "tags" = some (Json.str "") → reshapeTags item = .ok [])
    ∧ pySplit "BTC|Regulation" pipeChar = ["BTC", "Regulation"] := by
  refine ⟨?_, ?_, ?_, ?_, by decide⟩
  · simp [reshapeCategories, Json.getD, hc]
  · intro tg htg hne
    simp [reshapeTags, Json.getD, htg, Json.truthy, hne]
  · intro htg
    simp [reshapeTags, Json.getD, htg, Json.truthy]
  · intro htg
    simp [reshapeTags, Json.getD, htg, Json.truthy]

/-- Witness for C6: the item `{categories: "BTC|Regulation"}` with no
`tags` field reshapes to categories `["BTC", "Regulation"]` and tags `[]`. -/
theorem news_split_fields_witness :
    reshapeCategories (Json.obj [("categories", Json.str "BTC|Regulation")])
      = .ok ["BTC", "Regulation"]
    ∧ reshapeTags (Json.obj [("categories", Json.str "BTC|Regulation")])
      = .ok [] := by
  have h := news_split_fields (Json.obj [("categories", Json.str "BTC|Regulation")])
    "BTC|Regulation" rfl
  exact ⟨by rw [h.1, h.2.2.2.2], h.2.2.1 rfl⟩

/-- C9: an absent or empty `categories` field reshapes to `[""]` — a
one-element list holding the empty string — while an absent or empty
`tags` field reshapes to the empty list. -/
theorem news_empty_categories (item : Json)
    (hc : item.get? "categories" = none
          ∨ item.get? "categories" = some (Json.str ""))
    (ht : item.get? "tags" = none ∨ item.get? "tags" = some (Json.str "")) :
    reshapeCategories item = .ok [""] ∧ reshapeTags item = .ok [] := by
  constructor
  · rcases hc with hc | hc <;>
      simp [reshapeCategories, Json.getD, hc] <;> decide
  · rcases ht with ht | ht <;>
      simp [reshapeTags, Json.getD, ht, Json.truthy]

/-- Witness for C9: the empty item `{ }` reshapes to categories `[""]` and
tags `[]`. -/
theorem news_empty_categories_witness :
    reshapeCategories (Json.obj []) = .ok [""]
    ∧ reshapeTags (Json.obj []) = .ok [] :=
  news_empty_categories (Json.obj []) (Or.inl rfl) (Or.inl rfl)

/-- C3 (amended): whenever `get_news` produces an envelope, its `count`
equals the length of its `news` list, and for every nonnegative requested
`limit` that length is at most `limit`. (For negative limits Python slice
semantics count from the end of the upstream list, so the bound fails.) -/
theorem news_envelope_count (l : Int) (payload : Json) (env : NewsEnvelope)
    (h : get_news_reshape l payload = .ok env) :
    env.count = env.news.length
    ∧ (0 ≤ l → (env.news.length : Int) ≤ l) := by
  unfold get_news_reshape at h
  cases hd : extractData payload with
  | none =>
    rw [hd] at h
    cases h
    exact ⟨rfl, fun hl => by simpa using hl⟩
  | some xs =>
    rw [hd] at h
    simp only [bind, Except.bind] at h
    cases hr : reshapeAll (pySliceTo xs l) with
    | error e => rw [hr] at h; cases h
    | ok items =>
      rw [hr] at h
      cases h
      refine ⟨rfl, fun hl => ?_⟩
      have h1 := reshapeAll_length _ _ hr
      have h2 := pySliceTo_length_le xs l hl
      simp only [h1]
      omega

/-- Witness for C3 (amended): a request with `limit = 5` on a two-item
upstream payload yields an envelope with `count = 2 = length` and
`length ≤ 5`. -/
theorem news_envelope_count_witness :
    ((⟨"success", 2,
        [⟨Json.null, Json.null, Json.null, Json.null, Json.null,
          ["BTC", "Regulation"], []⟩,
         ⟨Json.null, Json.null, Json.null, Json.null, Json.null, [""], []⟩]⟩ :
        NewsEnvelope).count
      = (⟨"success", 2,
          [⟨Json.null, Json.null, Json.null, Json.null, Json.null,
            ["BTC", "Regulation"], []⟩,
           ⟨Json.null, Json.null, Json.null, Json.null, Json.null, [""], []⟩]⟩ :
          NewsEnvelope).news.length)
    ∧ (0 ≤ (5 : Int) →
        (((⟨"success", 2,
            [⟨Json.null, Json.null, Json.null, Json.null, Json.null,
              ["BTC", "Regulation"], []⟩,
             ⟨Json.null, Json.null, Json.null, Json.null, Json.null, [""], []⟩]⟩ :
            NewsEnvelope).news.length : Int) ≤ 5)) :=
  news_envelope_count 5
    (Json.obj [("Data", Json.arr
      [Json.obj [("categories", Json.str "BTC|Regulation")], Json.obj []])])
    _ rfl

/-- Counterexample for C3 as stated: with requested `limit = -1` and a
two-item upstream `Data` list, `get_news` returns one news item, and
`1 ≤ -1` is false — the news length exceeds the requested limit. -/
theorem news_envelope_count_cex :
    get_news_reshape (-1)
        (Json.obj [("Data", Json.arr [Json.obj [], Json.obj []])])
      = .ok ⟨"success", 1,
          [⟨Json.null, Json.null, Json.null, Json.null, Json.null, [""], []⟩]⟩
    ∧ ¬ ((1 : Int) ≤ -1) :=
  ⟨rfl, by omega⟩

/-- C4: a simulated upstream 401 yields the fixed `Unauthorized` failure
`❌ Invalid API Key` regardless of the upstream body (so the body is never
echoed), and for any credential longer than that 17-character constant the
message cannot contain the credential. -/
theorem unauthorized_fixed_message (text : String) (j : Json) (cred : String)
    (h : 17 < cred.length) :
    fetch_classify 401 text j = .error ⟨401, "❌ Invalid API Key"⟩
    ∧ ¬ strContains "❌ Invalid API Key" cred := by
  refine ⟨rfl, fun hin => ?_⟩
  have hle := List.IsInfix.length_le hin
  have h17 : ("❌ Invalid API Key" : String).toList.length = 17 := by decide
  have hcl : cred.toList.length = cred.length := rfl
  omega

/-- Witness for C4: a 401 with body `"bad key details"` and an 18-character
credential. -/
theorem unauthorized_fixed_message_witness :
    fetch_classify 401 "bad key details" Json.null
      = .error ⟨401, "❌ Invalid API Key"⟩
    ∧ ¬ strContains "❌ Invalid API Key" "ABCDEFGHIJKLMNOPQR" :=
  unauthorized_fixed_message "bad key details" Json.null "ABCDEFGHIJKLMNOPQR"
    (by decide)

/-- C5: `test_api_key` is a total function into a response body (so no
protocol-level error ever reaches the transport layer), and every failure
of the probe call — any classified failure kind or transport error —
yields a body with `status = "error"` and a non-empty message. -/
theorem test_api_key_inband (r : UpstreamResult) (e : HTTPException)
    (h : fetch_from_cryptocompare r = .error e) :
    (test_api_key r).status = "error"
    ∧ (test_api_key r).message = "❌ Connection Error: " ++ strOfExc e
    ∧ (test_api_key r).message ≠ "" := by
  unfold test_api_key
  rw [h]
  refine ⟨rfl, rfl, fun heq => ?_⟩
  have hlen := congrArg String.length heq
  have : ("❌ Connection Error: " ++ strOfExc e).length
      = ("❌ Connection Error: " : String).length + (strOfExc e).length :=
    List.length_append _ _
  have h20 : ("❌ Connection Error: " : String).length = 20 := by decide
  have h0 : ("" : String).length = 0 := rfl
  rw [this, h20, h0] at hlen
  omega

/-- Witness for C5: an injected transport failure yields the in-band
error body. -/
theorem test_api_key_inband_witness :
    (test_api_key (UpstreamResult.transportError "timeout")).status = "error"
    ∧ (test_api_key (UpstreamResult.transportError "timeout")).message
        = "❌ Connection Error: " ++ strOfExc ⟨500, "❌ Connection Error: timeout"⟩
    ∧ (test_api_key (UpstreamResult.transportError "timeout")).message ≠ "" :=
  test_api_key_inband (UpstreamResult.transportError "timeout")
    ⟨500, "❌ Connection Error: timeout"⟩ rfl

/-- C10: every failure caught inside `test_api_key`, of any failure kind,
produces a message beginning with the fixed prefix `❌ Connection Error: `. -/
theorem test_api_key_message_prefix (r : UpstreamResult) (e : HTTPException)
    (h : fetch_from_cryptocompare r = .error e) :
    strStartsWith (test_api_key r).message "❌ Connection Error: " := by
  unfold test_api_key
  rw [h]
  show ("❌ Connection Error: " : String).toList
    <+: ("❌ Connection Error: " ++ strOfExc e).toList
  rw [toList_append_eq]
  exact List.prefix_append _ _

/-- Witness for C10: an injected upstream 429 yields a message starting
with `❌ Connection Error: `. -/
theorem test_api_key_message_prefix_witness :
    strStartsWith
      (test_api_key (UpstreamResult.response 429 "slow down" Json.null)).message
      "❌ Connection Error: " :=
  test_api_key_message_prefix (UpstreamResult.response 429 "slow down" Json.null)
    ⟨429, "❌ Rate limit exceeded. Please try again later."⟩ rfl

/-- A 250-character upstream body, used to exhibit the missing truncation
of the 400 branch. -/
def longBody : String := String.mk (List.replicate 250 (Char.ofNat 97))

/-- Counterexample for C1 as stated: on a 400 upstream response with a
250-character body, the failure message ends with the complete body —
the echoed excerpt has 250 characters, not at most 200. -/
theorem bad_request_no_truncation_cex :
    fetch_classify 400 longBody Json.null
      = .error ⟨400, "❌ Bad Request: " ++ longBody⟩
    ∧ ("❌ Bad Request: " ++ longBody).data.drop 15 = longBody.data
    ∧ longBody.length = 250
    ∧ ¬ (longBody.length ≤ 200) := by
  refine ⟨rfl, ?_, ?_, ?_⟩
  · show ("❌ Bad Request: ".data ++ longBody.data).drop 15 = longBody.data
    have h15 : ("❌ Bad Request: ".data).length = 15 := by decide
    rw [← h15, List.drop_left]
  · show (List.replicate 250 (Char.ofNat 97)).length = 250
    rw [List.length_replicate]
  · show ¬ ((List.replicate 250 (Char.ofNat 97)).length ≤ 200)
    rw [List.length_replicate]
    omega

/-- C1 (amended): the ≤200-character truncation applies to the
other-non-200 `UpstreamError` branch, whose message carries
`text[:200]`; the 400 `InvalidRequest` branch echoes the upstream body in
full, without truncation. -/
theorem upstream_error_truncation (status : Int) (text : String) (j : Json)
    (h200 : status ≠ 200) (h400 : status ≠ 400) (h401 : status ≠ 401)
    (h429 : status ≠ 429) :
    fetch_classify status text j
      = .error ⟨status, "⚠ Unexpected Error: " ++ pyTake text 200⟩
    ∧ (pyTake text 200).length ≤ 200
    ∧ fetch_classify 400 text j = .error ⟨400, "❌ Bad Request: " ++ text⟩ := by
  refine ⟨?_, ?_, rfl⟩
  · simp [fetch_classify, h200, h400, h401, h429]
  · show (text.data.take 200).length ≤ 200
    simp [List.length_take]

/-- Witness for C1 (amended): a 503 response with body `"oops"`. -/
theorem upstream_error_truncation_witness :
    fetch_classify 503 "oops" Json.null
      = .error ⟨503, "⚠ Unexpected Error: " ++ pyTake "oops" 200⟩
    ∧ (pyTake "oops" 200).length ≤ 200
    ∧ fetch_classify 400 "oops" Json.null
      = .error ⟨400, "❌ Bad Request: " ++ "oops"⟩ :=
  upstream_error_truncation 503 "oops" Json.null (by decide) (by decide)
    (by decide) (by decide)

/-- Counterexample for C2 as stated: with the credential configured to
`"SECRET123"`, the traced header line of the outbound request contains the
credential verbatim — it is not redacted. -/
theorem traced_headers_credential_cex :
    strContains (tracedHeadersLine "SECRET123") "SECRET123" := by decide

/-- C2 (amended): for every configured credential, the diagnostic trace of
the outbound headers contains the credential verbatim — the trace performs
no redaction at all. -/
theorem traced_headers_contain_credential (key : String) :
    strContains (tracedHeadersLine key) key := by
  have hsplit : tracedHeadersLine key
      = ("🔍 With headers: " ++ String.singleton (Char.ofNat 123) ++ sQuote
          ++ "authorization" ++ sQuote ++ ": " ++ sQuote ++ "Apikey ")
        ++ key
        ++ (sQuote ++ String.singleton (Char.ofNat 125)) := by
    simp only [tracedHeadersLine, pyDictRepr1, headerAuthValue,
      str_append_assoc]
  rw [hsplit]
  exact strContains_middle _ _ key
